import Mathlib

/-
Verification of the rule-evaluation / alert-debounce engine in `src/main.py`
(classes `RuleEngine` and `CAP`).

Embedding conventions:
* The geometry collaborator (shapely) is abstracted: a region of interest is
  represented by its containment predicate `Point → Bool`, standing for
  `roi.intersects(object.centroid)`; `execute` receives the detection's
  centroid directly.
* A Python dict `str → bool` is embedded as an association list with dict
  semantics (`dictSet` updates in place or appends a fresh key at the end,
  mirroring CPython's insertion-ordered dicts).
* The class-level containers `_objects_in_rois` and `_rois` (main.py lines
  18-21) live in `ClassState`; `RuleEngine.__init__` appends to them
  (lines 41-45) before reading the environment, which is why `RuleEngine.init`
  returns the updated `ClassState` even when construction fails.
* Environment access is explicit: `os.getenv("SLACK_TOKEN")` and
  `os.environ["SLACK_CHANNEL"]` become two `Option String` arguments; the
  `KeyError` raised by `os.environ` on a missing key becomes
  `ConfigError.missingSlackChannel`.
* The Slack transport outcome is a `DeliveryOutcome` argument: `success`, or
  `apiError e` for a raised `SlackApiError` whose `e.response["error"]` field
  is the string `e` (truthy iff nonempty, which is what the source's
  `assert e.response["error"]` at line 157 checks).
* Python ints are `Int`; no overflow is involved.
-/

/-- A point on the camera frame (the bounding-box centroid handed to the
geometry collaborator). Exact numeric type is irrelevant to the engine. -/
abbrev Point := Int × Int

/-- A region of interest, abstracted to its containment predicate
(`roi.intersects(point)` in main.py line 188). -/
abbrev Roi := Point → Bool

/-- Embedding of a Python `Dict[str, bool]` as an insertion-ordered
association list. -/
abbrev PresenceMap := List (String × Bool)

/-- Python `d[k]` as an option (a missing key would raise `KeyError`). -/
def dictGet? (m : PresenceMap) (k : String) : Option Bool :=
  match m.find? (fun p => p.1 == k) with
  | some p => some p.2
  | none => none

/-- Python `d[k]` read where the engine's reachable states guarantee the key
exists (`car` / `person` are always present after construction or reset);
defaults to `false` on the unreachable missing-key case. -/
def dictGetD (m : PresenceMap) (k : String) : Bool :=
  (dictGet? m k).getD false

/-- Python `d[k] = v`: update the entry in place if the key exists, else
append a new entry at the end (CPython dict insertion order). -/
def dictSet (m : PresenceMap) (k : String) (v : Bool) : PresenceMap :=
  if m.any (fun p => p.1 == k) then
    m.map (fun p => if p.1 == k then (p.1, v) else p)
  else
    m ++ [(k, v)]

/-- The key set of an embedded dict, in insertion order. -/
def dictKeys (m : PresenceMap) : List String :=
  m.map Prod.fst

/-- The dict literal `{"car": False, "person": False, "truck": False}`
appended per roi in `__init__` (lines 43-45) and reassigned per roi in
`reset_objects` (lines 65-69). -/
def initPresence : PresenceMap :=
  [("car", false), ("person", false), ("truck", false)]

/-- Outcome of one Slack `chat_postMessage` transport attempt: success, or a
raised `SlackApiError` carrying its `response["error"]` string. -/
inductive DeliveryOutcome where
  | success
  | apiError (errorField : String)
  deriving DecidableEq

/-- A delivery outcome the source code survives: either success, or a
`SlackApiError` whose `error` field is truthy (nonempty), so that the
`assert e.response["error"]` in the `except` handler (line 157) passes.
Real Slack API errors always carry a nonempty `error` string. -/
def deliveryOk : DeliveryOutcome → Bool
  | DeliveryOutcome.success => true
  | DeliveryOutcome.apiError e => e != ""

/-- Startup failure: `os.environ["SLACK_CHANNEL"]` raised `KeyError`
(main.py line 57). -/
inductive ConfigError where
  | missingSlackChannel
  deriving DecidableEq

/-- The class-level mutable containers of `RuleEngine` (main.py lines 18-21):
`_objects_in_rois` and `_rois` are declared on the class, not the instance,
so every constructed engine aliases these same two lists. -/
structure ClassState where
  objectsInRois : List PresenceMap
  rois : List Roi

/-- The full observable state of one engine instance, after construction.
`objectsInRois` / `rois` alias the class-level containers; the remaining
fields correspond to `_maximum_allowed_diff` (line 32), `_last_positive_frame`
(line 33), `__slack_client` (line 37, `some token` when configured),
`__slack_channel` (line 38) and `CAP._count` (line 172). -/
structure EngineState where
  objectsInRois : List PresenceMap
  rois : List Roi
  maximumAllowedDiff : Int
  lastPositiveFrame : Int
  slackClient : Option String
  slackChannel : String
  count : Nat

/-- The roi loop of `RuleEngine.__init__` (lines 41-45): append each roi's
polygon to the shared `_rois` and a fresh all-false presence dict to the
shared `_objects_in_rois`. -/
def RuleEngine.init_rois (cs : ClassState) (rois : List Roi) : ClassState :=
  { objectsInRois := cs.objectsInRois ++ rois.map (fun _ => initPresence),
    rois := cs.rois ++ rois }

/-- `RuleEngine.__init__` (lines 40-57). `slackToken` is
`os.getenv("SLACK_TOKEN")` and `slackChannel` is the optional value of
`SLACK_CHANNEL` in the environment. The roi loop runs first (so the shared
class containers grow even if construction then fails); the client is
created only for a truthy token; then `os.environ["SLACK_CHANNEL"]`
raises `KeyError` — unconditionally — when the variable is absent. -/
def RuleEngine.init (cs : ClassState) (rois : List Roi)
    (slackToken slackChannel : Option String) :
    ClassState × Except ConfigError EngineState :=
  let cs1 := RuleEngine.init_rois cs rois
  let client : Option String :=
    match slackToken with
    | some t => if t = "" then none else some t
    | none => none
  (cs1,
    match slackChannel with
    | none => Except.error ConfigError.missingSlackChannel
    | some ch =>
        Except.ok
          { objectsInRois := cs1.objectsInRois
            rois := cs1.rois
            maximumAllowedDiff := 1
            lastPositiveFrame := 0
            slackClient := client
            slackChannel := ch
            count := 0 })

/-- `RuleEngine.reset_objects` (lines 59-69): reassign every entry of
`_objects_in_rois` to a fresh all-false dict. Nothing else is touched. -/
def RuleEngine.reset_objects (s : EngineState) : EngineState :=
  { s with objectsInRois := s.objectsInRois.map (fun _ => initPresence) }

/-- `RuleEngine.should_notify` (lines 104-110): compute
`__slack_client != None and _maximum_allowed_diff < current_frame -
_last_positive_frame`, then unconditionally store
`_last_positive_frame = current_frame`, then return the computed result. -/
def RuleEngine.should_notify (s : EngineState) (current_frame : Int) :
    Bool × EngineState :=
  let res : Bool :=
    s.slackClient.isSome
      && decide (s.maximumAllowedDiff < current_frame - s.lastPositiveFrame)
  (res, { s with lastPositiveFrame := current_frame })

/-- `RuleEngine.notify` (lines 112-157). Returns immediately when
`__slack_client == None`; otherwise performs the transport call (the message
formatting in lines 116-154 builds strings only and touches no engine state).
A raised `SlackApiError` is caught and `assert e.response["error"]` is run:
it passes for a truthy (nonempty) error field and raises `AssertionError`
otherwise. No branch modifies the engine state. -/
def RuleEngine.notify (s : EngineState) (timestamp : Int)
    (rule_name cam_name : String) (delivery : DeliveryOutcome) :
    Except String EngineState :=
  match s.slackClient with
  | none => Except.ok s
  | some _ =>
      match delivery with
      | DeliveryOutcome.success => Except.ok s
      | DeliveryOutcome.apiError errorField =>
          if errorField = "" then Except.error "AssertionError"
          else Except.ok s

/-- `CAP.rule_name` (line 171). -/
def CAP.rule_name : String := "Car and Person"

/-- The rule condition of `CAP.execute` (lines 192-195):
`_objects_in_rois[index]["car"] and _objects_in_rois[index]["person"]`. -/
def capCheck (m : PresenceMap) : Bool :=
  dictGetD m "car" && dictGetD m "person"

/-- The `for index, roi in enumerate(self._rois)` search of `CAP.execute`
(lines 187-188): the loop body runs at the first index whose roi contains
the centroid (after which it returns or breaks), so the loop is a
first-match search. -/
def findFirstRoi (c : Point) : List Roi → Nat → Option Nat
  | [], _ => none
  | roi :: rest, index =>
      if roi c then some index else findFirstRoi c rest (index + 1)

/-- `CAP.execute` (lines 177-206). At the first roi containing the centroid:
mark the detection's class in that region's dict (line 189); if both `car`
and `person` are then present, increment `_count` (line 196), consult
`should_notify` (line 197), on approval call `notify` (lines 198-202) and
return the region index (line 203); if the rule check fails, `break` and
return `-1` (lines 204-206). When no roi contains the centroid, return `-1`
with nothing modified. An uncaught exception from `notify` propagates as
`Except.error`. -/
def CAP.execute (s : EngineState) (centroid : Point) (obj_class : String)
    (frame_num : Int) (cam_name : String) (timestamp : Int)
    (delivery : DeliveryOutcome) : Except String (Int × EngineState) :=
  match findFirstRoi centroid s.rois 0 with
  | none => Except.ok (-1, s)
  | some index =>
      let marked := dictSet (s.objectsInRois.getD index []) obj_class true
      let s1 := { s with objectsInRois := s.objectsInRois.set index marked }
      if capCheck marked then
        let s2 := { s1 with count := s1.count + 1 }
        let r := RuleEngine.should_notify s2 frame_num
        if r.1 then
          match RuleEngine.notify r.2 timestamp CAP.rule_name cam_name delivery with
          | Except.ok s4 => Except.ok ((index : Int), s4)
          | Except.error e => Except.error e
        else Except.ok ((index : Int), r.2)
      else Except.ok (-1, s1)

/-! ## Sample concrete states (used by witnesses and counterexamples) -/

/-- A region containing every point. -/
def regionAll : Roi := fun _ => true

/-- A region containing no point. -/
def regionNone : Roi := fun _ => false

/-- One region, a `car` already marked in it, notifier configured. -/
def sampleCarState : EngineState :=
  { objectsInRois := [[("car", true), ("person", false), ("truck", false)]]
    rois := [regionAll]
    maximumAllowedDiff := 1
    lastPositiveFrame := 0
    slackClient := some "xoxb-token"
    slackChannel := "alerts"
    count := 0 }

/-- Two regions whose containment areas overlap everywhere. -/
def sampleOverlapState : EngineState :=
  { objectsInRois := [initPresence, initPresence]
    rois := [regionAll, regionAll]
    maximumAllowedDiff := 1
    lastPositiveFrame := 0
    slackClient := none
    slackChannel := "alerts"
    count := 0 }

/-- One region that contains no point at all. -/
def sampleMissState : EngineState :=
  { objectsInRois := [initPresence]
    rois := [regionNone]
    maximumAllowedDiff := 1
    lastPositiveFrame := 0
    slackClient := some "xoxb-token"
    slackChannel := "alerts"
    count := 0 }

/-- One region, fresh presence, no notifier client. -/
def sampleBusState : EngineState :=
  { objectsInRois := [initPresence]
    rois := [regionAll]
    maximumAllowedDiff := 1
    lastPositiveFrame := 0
    slackClient := none
    slackChannel := "alerts"
    count := 0 }

/-! ## Helper lemmas -/

/-- If no configured roi contains the centroid, the first-match search fails
from any starting index. -/
lemma findFirstRoi_eq_none (c : Point) (rois : List Roi)
    (h : ∀ roi ∈ rois, roi c = false) :
    ∀ i : Nat, findFirstRoi c rois i = none := by
  induction rois with
  | nil => intro i; rfl
  | cons r rest ih =>
      intro i
      have hr : r c = false := h r (List.mem_cons_self r rest)
      have hrest : ∀ roi ∈ rest, roi c = false := fun roi hm =>
        h roi (List.mem_cons_of_mem r hm)
      simp [findFirstRoi, hr]
      exact ih hrest (i + 1)

/-- A delivery outcome with a truthy error field never escapes `notify`:
the state comes back unchanged. -/
lemma notify_deliveryOk (s : EngineState) (ts : Int) (rn cam : String)
    (d : DeliveryOutcome) (h : deliveryOk d = true) :
    RuleEngine.notify s ts rn cam d = Except.ok s := by
  cases hc : s.slackClient with
  | none => simp [RuleEngine.notify, hc]
  | some t =>
      cases d with
      | success => simp [RuleEngine.notify, hc]
      | apiError e =>
          have he : ¬ e = "" := by
            simpa [deliveryOk, bne] using h
          simp [RuleEngine.notify, hc, he]

/-- Closed form of `CAP.execute` when the centroid lands in roi `i` and the
delivery outcome is survivable. -/
lemma execute_closed_form (s : EngineState) (c : Point) (k : String)
    (fn : Int) (cam : String) (ts : Int) (d : DeliveryOutcome) (i : Nat)
    (h1 : findFirstRoi c s.rois 0 = some i) (h2 : deliveryOk d = true) :
    CAP.execute s c k fn cam ts d =
      (if capCheck (dictSet (s.objectsInRois.getD i []) k true) then
        Except.ok ((i : Int),
          { s with
              objectsInRois :=
                s.objectsInRois.set i (dictSet (s.objectsInRois.getD i []) k true)
              count := s.count + 1
              lastPositiveFrame := fn })
      else
        Except.ok (-1,
          { s with
              objectsInRois :=
                s.objectsInRois.set i (dictSet (s.objectsInRois.getD i []) k true) })) := by
  unfold CAP.execute
  rw [h1]
  by_cases hcap : capCheck (dictSet (s.objectsInRois.getD i []) k true)
  · simp only [hcap, if_true]
    by_cases hr : (RuleEngine.should_notify
        { s with
            objectsInRois :=
              s.objectsInRois.set i (dictSet (s.objectsInRois.getD i []) k true)
            count := s.count + 1 } fn).1
    · simp only [hr, if_true]
      rw [notify_deliveryOk _ _ _ _ _ h2]
      rfl
    · simp only [hr, if_false]
      rfl
  · dsimp only
    rw [if_neg hcap, if_neg hcap]

/-- Updating a list at one position leaves every other position unchanged. -/
lemma set_getD_ne {α : Type} (l : List α) (i j : Nat) (hij : i ≠ j)
    (a d : α) : (l.set i a).getD j d = l.getD j d := by
  induction l generalizing i j with
  | nil => simp [List.set]
  | cons x xs ih =>
      cases i with
      | zero =>
          cases j with
          | zero => exact absurd rfl hij
          | succ j' => simp [List.set, List.getD]
      | succ i' =>
          cases j with
          | zero => simp [List.set, List.getD]
          | succ j' =>
              have : i' ≠ j' := fun h => hij (by rw [h])
              simp only [List.set, List.getD_cons_succ]
              exact ih i' j' this

/-- State evolution under repeated `should_notify` calls at a fixed frame:
the threshold and client never change, and from the first call on the stored
last positive frame is pinned to that frame. -/
lemma iterate_should_notify_state (s : EngineState) (f : Int) :
    ∀ n : Nat,
      ((fun t => (RuleEngine.should_notify t f).2)^[n] s).maximumAllowedDiff
          = s.maximumAllowedDiff
      ∧ ((fun t => (RuleEngine.should_notify t f).2)^[n] s).slackClient
          = s.slackClient
      ∧ (1 ≤ n →
          ((fun t => (RuleEngine.should_notify t f).2)^[n] s).lastPositiveFrame
            = f) := by
  intro n
  induction n with
  | zero =>
      refine ⟨rfl, rfl, ?_⟩
      intro h
      exact absurd h (by omega)
  | succ m ih =>
      rw [Function.iterate_succ_apply']
      exact ⟨ih.1, ih.2.1, fun _ => rfl⟩

/-! ## Claim theorems -/

/-- C1: `should_notify(currentFrame)` returns true iff a notification client
is configured AND `currentFrame - _last_positive_frame` exceeds
`_maximum_allowed_diff`, and — regardless of the returned value — its only
side effect is storing `currentFrame` into `_last_positive_frame`; from the
initial state (threshold 1, last positive frame 0) with a configured
channel, rule-positive calls at frames 10, 11, 12, then 20 return
true, false, false, true respectively. -/
theorem c1_should_notify_gate :
    (∀ (s : EngineState) (f : Int),
        RuleEngine.should_notify s f =
          ((s.slackClient.isSome
              && decide (s.maximumAllowedDiff < f - s.lastPositiveFrame)),
            { s with lastPositiveFrame := f }))
    ∧ (let r1 := RuleEngine.should_notify sampleCarState 10
       let r2 := RuleEngine.should_notify r1.2 11
       let r3 := RuleEngine.should_notify r2.2 12
       let r4 := RuleEngine.should_notify r3.2 20
       r1.1 = true ∧ r2.1 = false ∧ r3.1 = false ∧ r4.1 = true) := by
  refine ⟨fun s f => rfl, ?_⟩
  exact ⟨by decide, by decide, by decide, by decide⟩

/-- C4: the claim says construction succeeds when notifier configuration is
absent and fails exactly when credentials are present without a destination.
The code instead reads `os.environ["SLACK_CHANNEL"]` unconditionally
(main.py line 57): with no credentials and no channel configured,
construction still fails at startup. This theorem evaluates the constructor
at that failing input. -/
theorem c4_init_fails_even_without_credentials :
    (RuleEngine.init { objectsInRois := [], rois := [] } [regionAll]
        none none).2
      = Except.error ConfigError.missingSlackChannel := rfl

/-- C9: `_objects_in_rois` and `_rois` are class-level mutable containers
(`ClassState` in this embedding) shared by every engine instance; each
constructor call appends its regions to those same lists, so after a second
construction with region list `r2` following a first with `r1`, the shared
containers — which both instances alias — hold `r1.length + r2.length`
regions and presence maps. -/
theorem c9_class_state_shared_across_instances
    (r1 r2 : List Roi) (t1 t2 : Option String) (ch1 ch2 : String) :
    ((RuleEngine.init
        ((RuleEngine.init { objectsInRois := [], rois := [] }
            r1 t1 (some ch1)).1)
        r2 t2 (some ch2)).1).rois.length = r1.length + r2.length
    ∧ ((RuleEngine.init
        ((RuleEngine.init { objectsInRois := [], rois := [] }
            r1 t1 (some ch1)).1)
        r2 t2 (some ch2)).1).objectsInRois.length
          = r1.length + r2.length := by
  constructor <;> simp [RuleEngine.init, RuleEngine.init_rois]

/-- C10: once `should_notify(f)` has run, any number of further
`should_notify(f)` calls with the same frame `f` return false whenever the
threshold is nonnegative: the stored last positive frame equals `f`, and a
gap of 0 never exceeds a nonnegative threshold, so a rule instance never
notifies twice for one frame number. -/
theorem c10_same_frame_never_notifies_twice (s : EngineState) (f : Int)
    (h : 0 ≤ s.maximumAllowedDiff) :
    ∀ n : Nat, 1 ≤ n →
      (RuleEngine.should_notify
          ((fun t => (RuleEngine.should_notify t f).2)^[n] s) f).1 = false := by
  intro n hn
  obtain ⟨hmax, -, hlast⟩ := iterate_should_notify_state s f n
  have hgap : ¬ (((fun t => (RuleEngine.should_notify t f).2)^[n]
      s).maximumAllowedDiff <
        f - ((fun t => (RuleEngine.should_notify t f).2)^[n]
          s).lastPositiveFrame) := by
    rw [hmax, hlast hn]
    omega
  generalize hT : (fun t => (RuleEngine.should_notify t f).2)^[n] s = T
  rw [hT] at hgap
  simp only [RuleEngine.should_notify]
  rw [decide_eq_false hgap, Bool.and_false]

/-- Witness for C10 at the concrete configured sample state, frame 10,
one prior call. -/
theorem c10_witness :
    0 ≤ sampleCarState.maximumAllowedDiff ∧
    (RuleEngine.should_notify
        ((fun t => (RuleEngine.should_notify t 10).2)^[1] sampleCarState)
        10).1 = false :=
  ⟨by decide,
    c10_same_frame_never_notifies_twice sampleCarState 10 (by decide) 1
      (by decide)⟩

/-- The in-place dict update (existing key) preserves the key list. -/
lemma dictKeys_update (m : PresenceMap) (k : String) (v : Bool) :
    dictKeys (m.map (fun p => if p.1 == k then (p.1, v) else p))
      = dictKeys m := by
  induction m with
  | nil => rfl
  | cons p rest ih =>
      simp only [dictKeys, List.map_cons] at ih ⊢
      rw [ih]
      congr 1
      by_cases hp : p.1 == k <;> simp [hp]

/-- Appending a fresh entry appends its key to the key list. -/
lemma dictKeys_append_new (m : PresenceMap) (k : String) (v : Bool) :
    dictKeys (m ++ [(k, v)]) = dictKeys m ++ [k] := by
  simp [dictKeys]

/-- C2: when a detection's centroid lands in region `i` (the first match),
`CAP.execute` evaluates the rule positively iff, after marking the
detection's class in that region's presence map, both `car` and `person`
are present there; a positive evaluation returns the region index and
increments `_count` by exactly one, a negative one returns `-1` with
`_count` unchanged, and the only presence change is the marking itself, so
each further qualifying detection re-triggers and increments again. -/
theorem c2_cap_positivity_and_count (s : EngineState) (c : Point)
    (k : String) (fn : Int) (cam : String) (ts : Int) (d : DeliveryOutcome)
    (i : Nat) (h1 : findFirstRoi c s.rois 0 = some i)
    (h2 : deliveryOk d = true) :
    ∃ s2 : EngineState,
      CAP.execute s c k fn cam ts d =
        Except.ok
          ((if capCheck (dictSet (s.objectsInRois.getD i []) k true)
              then (i : Int) else -1), s2)
      ∧ s2.count = s.count +
          (if capCheck (dictSet (s.objectsInRois.getD i []) k true)
            then 1 else 0)
      ∧ s2.objectsInRois =
          s.objectsInRois.set i
            (dictSet (s.objectsInRois.getD i []) k true) := by
  rw [execute_closed_form s c k fn cam ts d i h1 h2]
  by_cases hcap : capCheck (dictSet (s.objectsInRois.getD i []) k true) = true
  · simp only [if_pos hcap]
    exact ⟨_, rfl, rfl, rfl⟩
  · simp only [if_neg hcap]
    exact ⟨_, rfl, rfl, rfl⟩

/-- Witness for C2: a region already holding a car; a person detection lands
in it, the rule fires and the counter goes from 0 to 1. -/
theorem c2_witness :
    ∃ s2 : EngineState,
      CAP.execute sampleCarState (0, 0) "person" 5 "cam0" 0
          DeliveryOutcome.success =
        Except.ok
          ((if capCheck
                (dictSet (sampleCarState.objectsInRois.getD 0 []) "person"
                  true)
              then (0 : Int) else -1), s2)
      ∧ s2.count = sampleCarState.count +
          (if capCheck
              (dictSet (sampleCarState.objectsInRois.getD 0 []) "person" true)
            then 1 else 0)
      ∧ s2.objectsInRois =
          sampleCarState.objectsInRois.set 0
            (dictSet (sampleCarState.objectsInRois.getD 0 []) "person"
              true) :=
  c2_cap_positivity_and_count sampleCarState (0, 0) "person" 5 "cam0" 0
    DeliveryOutcome.success 0 rfl rfl

/-- C3: per detection at most one region's presence map changes — the first
configured region containing the centroid — every other region's map is
untouched; and whenever region 0 contains the point, the first-match search
attributes the detection to region 0, even if later regions also contain
it. -/
theorem c3_first_match_wins (s : EngineState) (c : Point) (k : String)
    (fn : Int) (cam : String) (ts : Int) (d : DeliveryOutcome)
    (h2 : deliveryOk d = true) :
    (∃ r : Int, ∃ s2 : EngineState,
        CAP.execute s c k fn cam ts d = Except.ok (r, s2)
        ∧ ∀ j : Nat, findFirstRoi c s.rois 0 ≠ some j →
            s2.objectsInRois.getD j [] = s.objectsInRois.getD j [])
    ∧ (∀ r0 : Roi, ∀ tl : List Roi, s.rois = r0 :: tl → r0 c = true →
        findFirstRoi c s.rois 0 = some 0) := by
  constructor
  · cases hfi : findFirstRoi c s.rois 0 with
    | none =>
        refine ⟨-1, s, ?_, fun j hj => rfl⟩
        unfold CAP.execute
        rw [hfi]
    | some i =>
        rw [execute_closed_form s c k fn cam ts d i hfi h2]
        by_cases hcap :
            capCheck (dictSet (s.objectsInRois.getD i []) k true) = true
        · simp only [if_pos hcap]
          refine ⟨(i : Int), _, rfl, ?_⟩
          intro j hj
          exact set_getD_ne s.objectsInRois i j
            (fun he => hj (congrArg some he)) _ _
        · simp only [if_neg hcap]
          refine ⟨-1, _, rfl, ?_⟩
          intro j hj
          exact set_getD_ne s.objectsInRois i j
            (fun he => hj (congrArg some he)) _ _
  · intro r0 tl hrois hr0
    rw [hrois]
    simp [findFirstRoi, hr0]

/-- Witness for C3: two regions both containing the point; the detection is
attributed to region 0 and region 1's map is untouched. -/
theorem c3_witness :
    (∃ r : Int, ∃ s2 : EngineState,
        CAP.execute sampleOverlapState (0, 0) "car" 3 "cam0" 0
            DeliveryOutcome.success = Except.ok (r, s2)
        ∧ ∀ j : Nat,
            findFirstRoi (0, 0) sampleOverlapState.rois 0 ≠ some j →
              s2.objectsInRois.getD j [] =
                sampleOverlapState.objectsInRois.getD j [])
    ∧ (∀ r0 : Roi, ∀ tl : List Roi,
        sampleOverlapState.rois = r0 :: tl → r0 (0, 0) = true →
          findFirstRoi (0, 0) sampleOverlapState.rois 0 = some 0) :=
  c3_first_match_wins sampleOverlapState (0, 0) "car" 3 "cam0" 0
    DeliveryOutcome.success rfl

/-- C7: a detection whose centroid lies in no configured region leaves the
whole engine state unchanged — presence maps, `_count`, and the debounce
state — no rule check or notification decision runs, and `execute`
returns `-1`. -/
theorem c7_no_region_no_effect (s : EngineState) (c : Point) (k : String)
    (fn : Int) (cam : String) (ts : Int) (d : DeliveryOutcome)
    (h : ∀ roi ∈ s.rois, roi c = false) :
    CAP.execute s c k fn cam ts d = Except.ok (-1, s) := by
  unfold CAP.execute
  rw [findFirstRoi_eq_none c s.rois h 0]

/-- Witness for C7: the sample region contains no point at all. -/
theorem c7_witness :
    CAP.execute sampleMissState (0, 0) "car" 1 "cam0" 0
        DeliveryOutcome.success = Except.ok (-1, sampleMissState) :=
  c7_no_region_no_effect sampleMissState (0, 0) "car" 1 "cam0" 0
    DeliveryOutcome.success
    (by
      intro roi hm
      have hr : roi = regionNone := by
        simpa [sampleMissState] using hm
      rw [hr]
      rfl)

/-- C8: a Slack delivery failure (a `SlackApiError` with a truthy error
field, which is what the transport raises) is absorbed inside `notify`: the
run of `execute` is identical to a run with successful delivery — same
result, same presence maps, same counter, same `_last_positive_frame` — and
`notify` itself returns the state unchanged instead of aborting. -/
theorem c8_notify_failure_isolated (s : EngineState) (c : Point)
    (k : String) (fn : Int) (cam : String) (ts : Int) (e : String)
    (h : e ≠ "") :
    CAP.execute s c k fn cam ts (DeliveryOutcome.apiError e) =
      CAP.execute s c k fn cam ts DeliveryOutcome.success
    ∧ RuleEngine.notify s ts CAP.rule_name cam
        (DeliveryOutcome.apiError e) = Except.ok s := by
  have hok : deliveryOk (DeliveryOutcome.apiError e) = true := by
    simpa [deliveryOk] using h
  constructor
  · cases hfi : findFirstRoi c s.rois 0 with
    | none =>
        unfold CAP.execute
        rw [hfi]
    | some i =>
        rw [execute_closed_form s c k fn cam ts
            (DeliveryOutcome.apiError e) i hfi hok,
          execute_closed_form s c k fn cam ts
            DeliveryOutcome.success i hfi rfl]
  · exact notify_deliveryOk s ts CAP.rule_name cam _ hok

/-- Witness for C8 at a concrete failed delivery (`channel_not_found`). -/
theorem c8_witness :
    CAP.execute sampleCarState (0, 0) "person" 5 "cam0" 7
        (DeliveryOutcome.apiError "channel_not_found") =
      CAP.execute sampleCarState (0, 0) "person" 5 "cam0" 7
        DeliveryOutcome.success
    ∧ RuleEngine.notify sampleCarState 7 CAP.rule_name "cam0"
        (DeliveryOutcome.apiError "channel_not_found") =
        Except.ok sampleCarState :=
  c8_notify_failure_isolated sampleCarState (0, 0) "person" 5 "cam0" 7
    "channel_not_found" (by decide)

/-- C5 counterexample: the claim says marking a class outside
["car", "person", "truck"] fails with `UnknownClass` and leaves the map
unmodified. The code's `self._objects_in_rois[index][obj_class] = True`
(line 189) raises nothing and extends the dict: a `bus` detection in the
region succeeds (`Except.ok`) and the region's key set gains `bus`. -/
theorem c5_counterexample :
    CAP.execute sampleBusState (0, 0) "bus" 1 "cam0" 0
        DeliveryOutcome.success =
      Except.ok (-1,
        { sampleBusState with
            objectsInRois := [initPresence ++ [("bus", true)]] })
    ∧ dictKeys (initPresence ++ [("bus", true)])
        = ["car", "person", "truck", "bus"] :=
  ⟨rfl, rfl⟩

/-- C5 (amended): presence maps are created (`__init__`, lines 43-45) and
reset (`reset_objects`, lines 65-69) with key set exactly
["car", "person", "truck"], and marking a class already in the map keeps
the key set; but marking a class outside the tracked set does not fail —
the dict write extends the key set by appending that class. -/
theorem c5_amended_presence_key_set (s : EngineState) (rois : List Roi)
    (m : PresenceMap) (k : String) :
    (∀ m2 ∈ (RuleEngine.reset_objects s).objectsInRois,
        dictKeys m2 = ["car", "person", "truck"])
    ∧ (∀ m2 ∈ (RuleEngine.init_rois { objectsInRois := [], rois := [] }
          rois).objectsInRois,
        dictKeys m2 = ["car", "person", "truck"])
    ∧ (m.any (fun p => p.1 == k) = true →
        dictKeys (dictSet m k true) = dictKeys m)
    ∧ (m.any (fun p => p.1 == k) = false →
        dictKeys (dictSet m k true) = dictKeys m ++ [k]) := by
  refine ⟨?_, ?_, ?_, ?_⟩
  · intro m2 hm
    have hm2 : m2 = initPresence := by
      simp only [RuleEngine.reset_objects, List.mem_map] at hm
      rcases hm with ⟨a, -, ha⟩
      exact ha.symm
    rw [hm2]
    rfl
  · intro m2 hm
    have hm2 : m2 = initPresence := by
      simp only [RuleEngine.init_rois, List.mem_append, List.mem_map,
        List.not_mem_nil, false_or] at hm
      rcases hm with ⟨a, -, ha⟩
      exact ha.symm
    rw [hm2]
    rfl
  · intro hany
    unfold dictSet
    rw [if_pos hany]
    exact dictKeys_update m k true
  · intro hany
    unfold dictSet
    rw [hany]
    simp [dictKeys]

/-- Witness for the amended C5: marking `bus` on a fresh presence map
appends the key `bus`. -/
theorem c5_amended_witness :
    dictKeys (dictSet initPresence "bus" true)
      = dictKeys initPresence ++ ["bus"] :=
  (c5_amended_presence_key_set sampleBusState [] initPresence
    "bus").2.2.2 (by decide)

/-- C6: after `reset_objects`, the presence flag of every configured region
and every tracked class is false regardless of prior state, and nothing
outside the presence maps changes — region list, threshold, last positive
frame, Slack client/channel and counter are untouched. -/
theorem c6_reset_clears_presence_only (s : EngineState) :
    (∀ m ∈ (RuleEngine.reset_objects s).objectsInRois,
        ∀ k ∈ ["car", "person", "truck"], dictGet? m k = some false)
    ∧ (RuleEngine.reset_objects s).objectsInRois.length
        = s.objectsInRois.length
    ∧ (RuleEngine.reset_objects s).rois = s.rois
    ∧ (RuleEngine.reset_objects s).maximumAllowedDiff = s.maximumAllowedDiff
    ∧ (RuleEngine.reset_objects s).lastPositiveFrame = s.lastPositiveFrame
    ∧ (RuleEngine.reset_objects s).slackClient = s.slackClient
    ∧ (RuleEngine.reset_objects s).slackChannel = s.slackChannel
    ∧ (RuleEngine.reset_objects s).count = s.count := by
  refine ⟨?_, by simp [RuleEngine.reset_objects], rfl, rfl, rfl, rfl,
    rfl, rfl⟩
  intro m hm k hk
  have hm2 : m = initPresence := by
    simp only [RuleEngine.reset_objects, List.mem_map] at hm
    rcases hm with ⟨a, -, ha⟩
    exact ha.symm
  rw [hm2]
  fin_cases hk <;> rfl

/-- Witness for C6: the `car` flag, previously true in the sample state, is
false after reset. -/
theorem c6_witness : dictGet? initPresence "car" = some false :=
  (c6_reset_clears_presence_only sampleCarState).1 initPresence
    (by decide) "car" (by decide)
